import Mathlib

/-!
Shallow embedding of the SSE Tenant Manager API client (`src/app.py`,
class `SSEAPIClient`) and proofs about its token handling, response-shape
extraction, update-payload normalization, the three-tier admin-field
fallback chain of `update_tenant`, and the uniform error boundary of the
tenant operations.

Machine conventions:
* time is modelled as `Int` seconds (Python `datetime` arithmetic is exact;
  `timedelta(minutes=5)` is 300 seconds);
* a parsed JSON document is a `JVal`; `Option JVal` models the result of
  `response.json()` (`none` = the body is not valid JSON, so `.json()`
  raises);
* Python exceptions are modelled with `Except String`; the `try/except`
  blocks of the source become explicit `match`es on that monad;
* the network is an oracle: each operation receives the outcome of its
  successive `_make_request` invocations (`Except String HttpResponse`,
  `.error` = the call raised, covering both the authentication raise of
  `_ensure_authenticated` and a transport `RequestException`).
-/

namespace TenantManager

/-! ### Python string primitives -/

/-- Characters stripped by Python `str.strip()` (its default whitespace set). -/
def isPySpace (c : Char) : Bool :=
  c == ' ' || c == '\t' || c == '\n' || c == '\r' || c == '\x0b' || c == '\x0c'

/-- Python `str.strip()`. -/
def pyStrip (s : String) : String :=
  String.mk (((s.data.dropWhile isPySpace).reverse.dropWhile isPySpace).reverse)

/-- Does `pat` occur at the head of `hay`? (helper for the substring test). -/
def charsLead : List Char → List Char → Bool
  | [], _ => true
  | _ :: _, [] => false
  | a :: as, b :: bs => a == b && charsLead as bs

/-- Does `pat` occur anywhere in `hay`? (helper for the substring test). -/
def charsContains (pat : List Char) : List Char → Bool
  | [] => pat.isEmpty
  | c :: rest => charsLead pat (c :: rest) || charsContains pat rest

/-- Python `pat in hay` on strings: substring containment. -/
def strContains (hay pat : String) : Bool :=
  charsContains pat.data hay.data

/-! ### JSON values -/

/-- A parsed JSON document, as produced by `response.json()`. -/
inductive JVal where
  | null : JVal
  | bool : Bool → JVal
  | num : Int → JVal
  | str : String → JVal
  | arr : List JVal → JVal
  | obj : List (String × JVal) → JVal

mutual

/-- Python `repr()` of a parsed JSON value (used by f-string interpolation
of dicts/lists, e.g. `f" - \x7berror_detail\x7d"` in `update_tenant`). -/
def pyRepr : JVal → String
  | .null => "None"
  | .bool true => "True"
  | .bool false => "False"
  | .num n => toString n
  | .str s => "'" ++ s ++ "'"
  | .arr xs => "[" ++ pyReprItems xs ++ "]"
  | .obj fs => "\x7b" ++ pyReprFields fs ++ "\x7d"

/-- Comma-separated `repr` of list items. -/
def pyReprItems : List JVal → String
  | [] => ""
  | [x] => pyRepr x
  | x :: y :: rest => pyRepr x ++ ", " ++ pyReprItems (y :: rest)

/-- Comma-separated `repr` of dict entries. -/
def pyReprFields : List (String × JVal) → String
  | [] => ""
  | [(k, v)] => "'" ++ k ++ "': " ++ pyRepr v
  | (k, v) :: y :: rest => "'" ++ k ++ "': " ++ pyRepr v ++ ", " ++ pyReprFields (y :: rest)

end

/-- Python `str()` of a parsed JSON value (as used by
`'adminDetails' in str(error_message)` and by f-string interpolation). -/
def pyStr : JVal → String
  | .str s => s
  | v => pyRepr v

/-! ### Token state and authentication (`app.py` lines 83-148) -/

/-- The token-relevant mutable state of an `SSEAPIClient` instance:
`self.access_token` and `self.token_expires_at` (both `None` at
construction). -/
structure ClientState where
  access_token : Option String
  token_expires_at : Option Int

/-- The fields `authenticate` reads from a 200 token response body:
`token_data.get('access_token')` and `token_data.get('expires_in', 3600)`.
`none` means the key is absent. -/
structure TokenBody where
  access_token : Option String
  expires_in : Option Int

/-- Outcome of the single `requests.post` in `authenticate`:
either a `RequestException` (with message), or a status code and the
result of `response.json()` (`none` = undecodable body, which raises a
`requests.exceptions.JSONDecodeError`, itself a `RequestException`). -/
inductive AuthNet where
  | exn : String → AuthNet
  | resp : Nat → Option TokenBody → AuthNet

/-- What one `authenticate()` call produces: the resulting client state,
the returned `(success, message)` pair, and how many network calls
(`requests.post` attempts) it made. -/
structure AuthResult where
  state : ClientState
  success : Bool
  message : String
  networkCalls : Nat

/-- `SSEAPIClient.is_token_valid` (lines 104-108):
`if not self.access_token or not self.token_expires_at: return False`
(note Python falsiness: an empty token string also fails this guard);
`return datetime.now() < self.token_expires_at - timedelta(minutes=5)`. -/
def is_token_valid (st : ClientState) (now : Int) : Bool :=
  match st.access_token, st.token_expires_at with
  | none, _ => false
  | _, none => false
  | some t, some exp => !(t == "") && decide (now < exp - 300)

/-- `SSEAPIClient.authenticate` (lines 110-148). -/
def authenticate (st : ClientState) (now : Int) (net : AuthNet) : AuthResult :=
  if is_token_valid st now then
    ⟨st, true, "Using existing authentication token", 0⟩
  else
    match net with
    | .exn e => ⟨st, false, "Authentication error: " ++ e, 1⟩
    | .resp status body =>
      if status = 200 then
        match body with
        | none =>
          -- response.json() raised (a RequestException): caught at line 145
          ⟨st, false, "Authentication error: JSONDecodeError", 1⟩
        | some tb =>
          ⟨⟨tb.access_token, some (now + tb.expires_in.getD 3600)⟩,
            true, "Authentication successful", 1⟩
      else if status = 429 then
        ⟨st, false, "Rate limit exceeded. Please wait before trying again.", 1⟩
      else
        ⟨st, false, "Authentication failed: " ++ toString status, 1⟩

/-- `SSEAPIClient._ensure_authenticated` (lines 150-155): raises
(`Except.error`) when the authentication attempt fails. -/
def ensure_authenticated (st : ClientState) (now : Int) (net : AuthNet) :
    Except String ClientState :=
  if is_token_valid st now then .ok st
  else
    let r := authenticate st now net
    if r.success then .ok r.state
    else .error ("Authentication failed: " ++ r.message)

/-- An HTTP response as the tenant operations observe it: status code,
the result of `response.json()` (`none` = raises), and `response.text`. -/
structure HttpResponse where
  status : Nat
  jsonBody : Option JVal
  text : String

/-- Oracle for the successive `_make_request` invocations of one operation:
the `i`-th invocation either raises (`.error`, covering an
authentication failure raised by `_ensure_authenticated` as well as a
transport `RequestException`, both re-raised by `_make_request`,
lines 157-175) or returns a response. -/
abbrev MkReq := Nat → Except String HttpResponse

/-- `SSEAPIClient._make_request` (lines 157-175), composed from
`_ensure_authenticated` and the request outcome. -/
def make_request (st : ClientState) (now : Int) (anet : AuthNet)
    (out : Except String HttpResponse) : Except String HttpResponse := do
  let _ ← ensure_authenticated st now anet
  out

/-! ### Tenant operations (`app.py` lines 177-400)

Each operation `op` is split into `op_body` — the code of its `try` block,
in the `Except String` monad, an `.error` being a Python exception that
reaches the enclosing handler — and `op` itself, which adds that
`except Exception as e` handler converting the exception into the
`(False, message)` pair of the source. -/

/-- The uniform `(success, payload-or-error-message)` result every tenant
operation returns: `ok` is `(True, payload)`, `err` is `(False, message)`. -/
inductive OpResult where
  | ok : JVal → OpResult
  | err : String → OpResult

/-- Python `len()` applied to a parsed JSON value: defined for lists,
strings and dicts; raises `TypeError` otherwise (as in
`logger.info(f"Successfully fetched \x7blen(tenants)\x7d tenants")`). -/
def pyLen : JVal → Except String Nat
  | .arr xs => .ok xs.length
  | .str s => .ok s.length
  | .obj fs => .ok fs.length
  | _ => .error "TypeError: object has no len()"

/-- Python `d.get(key, default)` on a parsed JSON value: raises
`AttributeError` when the value is not a dict. -/
def pyDictGet (v : JVal) (k : String) (dflt : JVal) : Except String JVal :=
  match v with
  | .obj fs => .ok ((fs.lookup k).getD dflt)
  | _ => .error "AttributeError: object has no attribute get"

/-- Lines 184-188 of `get_tenants`: extract the record list from the
parsed body.  `data.get('data', data.get('tenants', []))` when the body
is a dict, the body itself otherwise. -/
def extract_tenants (data : JVal) : JVal :=
  match data with
  | .obj fs => (fs.lookup "data").getD ((fs.lookup "tenants").getD (.arr []))
  | _ => data

/-- Body of the `try` block of `SSEAPIClient.get_tenants` (lines 179-194). -/
def get_tenants_body (mkr : MkReq) : Except String OpResult := do
  let r ← mkr 0
  if r.status = 200 then
    match r.jsonBody with
    | none => .error "JSONDecodeError"
    | some data =>
      let tenants := extract_tenants data
      let _ ← pyLen tenants   -- logger.info interpolates len(tenants)
      .ok (.ok tenants)
  else
    .ok (.err ("Failed to fetch tenants: " ++ toString r.status))

/-- `SSEAPIClient.get_tenants` (lines 177-199), with its
`except Exception` handler. -/
def get_tenants (mkr : MkReq) : Except String OpResult :=
  match get_tenants_body mkr with
  | .ok r => .ok r
  | .error e => .ok (.err ("Error fetching tenants: " ++ e))

/-- Body of the `try` block of `SSEAPIClient.get_tenant` (lines 203-213). -/
def get_tenant_body (mkr : MkReq) : Except String OpResult := do
  let r ← mkr 0
  if r.status = 200 then
    match r.jsonBody with
    | none => .error "JSONDecodeError"
    | some tenant => .ok (.ok tenant)
  else
    .ok (.err ("Failed to fetch tenant: " ++ toString r.status))

/-- `SSEAPIClient.get_tenant` (lines 201-218). -/
def get_tenant (mkr : MkReq) : Except String OpResult :=
  match get_tenant_body mkr with
  | .ok r => .ok r
  | .error e => .ok (.err ("Error fetching tenant: " ++ e))

/-- Body of the `try` block of `SSEAPIClient.create_tenant`
(lines 222-232).  The log line reads
`tenant.get('id', tenant.get('organizationId', 'unknown'))`, which raises
`AttributeError` when the 200/201 body is not a dict. -/
def create_tenant_body (tenant_data : JVal) (mkr : MkReq) :
    Except String OpResult := do
  let r ← mkr 0
  if r.status = 200 ∨ r.status = 201 then
    match r.jsonBody with
    | none => .error "JSONDecodeError"
    | some tenant => do
      let inner ← pyDictGet tenant "organizationId" (.str "unknown")
      let _ ← pyDictGet tenant "id" inner
      .ok (.ok tenant)
  else
    .ok (.err ("Failed to create tenant: " ++ toString r.status))

/-- `SSEAPIClient.create_tenant` (lines 220-237). -/
def create_tenant (tenant_data : JVal) (mkr : MkReq) : Except String OpResult :=
  match create_tenant_body tenant_data mkr with
  | .ok r => .ok r
  | .error e => .ok (.err ("Error creating tenant: " ++ e))

/-- Body of the `try` block of `SSEAPIClient.delete_tenant`
(lines 365-375). -/
def delete_tenant_body (mkr : MkReq) : Except String OpResult := do
  let r ← mkr 0
  if r.status = 200 ∨ r.status = 202 ∨ r.status = 204 then
    .ok (.ok (.str "Tenant deleted successfully"))
  else
    .ok (.err ("Failed to delete tenant: " ++ toString r.status))

/-- `SSEAPIClient.delete_tenant` (lines 363-380). -/
def delete_tenant (mkr : MkReq) : Except String OpResult :=
  match delete_tenant_body mkr with
  | .ok r => .ok r
  | .error e => .ok (.err ("Error deleting tenant: " ++ e))

/-- Body of the `try` block of `SSEAPIClient.delete_multiple_tenants`
(lines 384-395). -/
def delete_multiple_tenants_body (tenant_ids : List String) (mkr : MkReq) :
    Except String OpResult := do
  let r ← mkr 0
  if r.status = 200 ∨ r.status = 202 ∨ r.status = 204 then
    .ok (.ok (.str ("Successfully deleted " ++ toString tenant_ids.length ++ " tenants")))
  else
    .ok (.err ("Failed to delete tenants: " ++ toString r.status))

/-- `SSEAPIClient.delete_multiple_tenants` (lines 382-400). -/
def delete_multiple_tenants (tenant_ids : List String) (mkr : MkReq) :
    Except String OpResult :=
  match delete_multiple_tenants_body tenant_ids mkr with
  | .ok r => .ok r
  | .error e => .ok (.err ("Error deleting tenants: " ++ e))

/-! ### `update_tenant` (`app.py` lines 239-361) -/

/-- One entry of the `tenant_data['adminDetails']` input list, as the code
discriminates it: a dict containing an `email` key (with the values of
`email`, `.get('firstName','')`, `.get('lastName','')`), a dict without an
`email` key, a bare string, or anything else. -/
inductive AdminInput where
  | objWithEmail : String → String → String → AdminInput
  | objNoEmail : AdminInput
  | strA : String → AdminInput
  | other : AdminInput

/-- A normalized admin entry `\x7bemail, firstName, lastName\x7d`. -/
structure AdminDetail where
  email : String
  firstName : String
  lastName : String

/-- A value stored in the outgoing update payload dict: a JSON value
copied from the input, a normalized admin array, or a flat email list. -/
inductive PVal where
  | jv : JVal → PVal
  | admins : List AdminDetail → PVal
  | emails : List String → PVal

/-- The outgoing payload dict, in insertion order. -/
abbrev Payload := List (String × PVal)

/-- The input `tenant_data` dict of `update_tenant`, restricted to the
parts the code reads: the allow-listed scalar fields present (as an
association list), `countryCode` when present, and `adminDetails` when
present (always a list, as the web layer builds it). -/
structure TenantData where
  scalars : List (String × JVal)
  countryCode : Option String
  adminDetails : Option (List AdminInput)

/-- The scalar-field allow-list of line 246. -/
def allowFields : List String :=
  ["name", "seats", "comments", "city", "state", "zipCode",
   "addressLine1", "addressLine2"]

/-- Lines 261-277: build `admin_details_array` from the input list.
Dict entries keep their (stripped) email/firstName/lastName and are
skipped when the stripped email is empty; bare strings become
`\x7bemail, '', ''\x7d` and are skipped when blank; anything else is skipped. -/
def normalize_admins : List AdminInput → List AdminDetail
  | [] => []
  | .objWithEmail e f l :: rest =>
    if pyStrip e ≠ "" then
      ⟨pyStrip e, pyStrip f, pyStrip l⟩ :: normalize_admins rest
    else normalize_admins rest
  | .objNoEmail :: rest => normalize_admins rest
  | .strA s :: rest =>
    if pyStrip s ≠ "" then
      ⟨pyStrip s, "", ""⟩ :: normalize_admins rest
    else normalize_admins rest
  | .other :: rest => normalize_admins rest

/-- Lines 307-312 (and equivalently line 280): the flat
`admin_emails_list` derived from the input admin entries. -/
def flat_emails : List AdminInput → List String
  | [] => []
  | .objWithEmail e _ _ :: rest =>
    if pyStrip e ≠ "" then pyStrip e :: flat_emails rest else flat_emails rest
  | .objNoEmail :: rest => flat_emails rest
  | .strA s :: rest =>
    if pyStrip s ≠ "" then pyStrip s :: flat_emails rest else flat_emails rest
  | .other :: rest => flat_emails rest

/-- The binding status and value of the local `admin_emails_list`:
it is assigned (both at line 280 and in the fallback at lines 307-312)
exactly when `'adminDetails' in tenant_data and tenant_data['adminDetails']`
holds, i.e. when the input admin list is present and non-empty; `none`
models the name staying unbound. -/
def admin_emails_list (td : TenantData) : Option (List String) :=
  match td.adminDetails with
  | some l => if l.isEmpty then none else some (flat_emails l)
  | none => none

/-- The scalar part of `update_data` (lines 246-248): for each
allow-listed field present in `tenant_data`, copy it. -/
def scalar_part (td : TenantData) : Payload :=
  allowFields.filterMap fun f => (td.scalars.lookup f).map fun v => (f, PVal.jv v)

/-- `update_data` as built by lines 243-286: scalars, then `countryCode`
(kept, trimmed, only when the trimmed length is exactly 2), then
`adminDetails` (the normalized array when the input list is non-empty,
an explicit empty array when the input list is present but empty,
absent when the input has no admin field). -/
def build_update_data (td : TenantData) : Payload :=
  let base := scalar_part td
  let base2 :=
    match td.countryCode with
    | some cc =>
      if (pyStrip cc).length = 2 then
        base ++ [("countryCode", PVal.jv (.str (pyStrip cc)))]
      else base
    | none => base
  match td.adminDetails with
  | some l =>
    if l.isEmpty then base2 ++ [("adminDetails", PVal.admins [])]
    else base2 ++ [("adminDetails", PVal.admins (normalize_admins l))]
  | none => base2

/-- `update_data_fallback` (lines 303-315): `update_data` without
`adminDetails`, plus `adminEmails` when the derived flat email list is
assigned and non-empty. -/
def update_data_fallback (td : TenantData) : Payload :=
  let base := (build_update_data td).filter fun kv => kv.1 != "adminDetails"
  match admin_emails_list td with
  | some l => if l ≠ [] then base ++ [("adminEmails", PVal.emails l)] else base
  | none => base

/-- `update_data_fallback2` (lines 326-329): the fallback payload without
`adminEmails`, plus `extraAdminEmails` when the flat email list is
non-empty.  (The code only reaches this construction when
`admin_emails_list` is bound.) -/
def update_data_fallback2 (td : TenantData) : Payload :=
  let base := (update_data_fallback td).filter fun kv => kv.1 != "adminEmails"
  match admin_emails_list td with
  | some l => if l ≠ [] then base ++ [("extraAdminEmails", PVal.emails l)] else base
  | none => base

/-- Line 300's test on a 400 response:
`'adminDetails' in str(error_detail.get('message', ''))`, where
`error_detail = response.json()`.  False when the body is undecodable
(the `.json()` raise falls to the bare `except`) or not a dict
(`.get` raises `AttributeError`, same handler). -/
def msg_mentions_admin (r : HttpResponse) : Bool :=
  match r.jsonBody with
  | some (.obj fs) =>
    strContains (pyStr ((fs.lookup "message").getD (.str ""))) "adminDetails"
  | _ => false

/-- Lines 340-347 (and 349-356): the failure message built from the last
response in hand — `f"Failed to update tenant: \x7bstatus\x7d"` plus the parsed
body (str()-interpolated) when `response.json()` succeeds, else
`response.text`. -/
def update_fail_msg (r : HttpResponse) : String :=
  "Failed to update tenant: " ++ toString r.status ++ " - " ++
    (match r.jsonBody with
     | some j => pyStr j
     | none => r.text)

/-- The `try` body of `SSEAPIClient.update_tenant` (lines 241-356),
paired with the trace of payloads handed to successive `_make_request`
invocations.  `Except.error` is an exception escaping to the outer
`except Exception` handler (line 358); every exception inside the inner
`try` (lines 296-337) is swallowed by the bare `except: pass` and falls
to the error-formatting code at line 340, which uses whatever `response`
names at that point.  The tier-2 block reads `admin_emails_list`, which
is unbound (an `UnboundLocalError`, swallowed by the same bare `except`)
unless the input admin list was present and non-empty. -/
def update_tenant_run (td : TenantData) (mkr : MkReq) :
    List Payload × Except String OpResult :=
  let ud := build_update_data td
  match mkr 0 with
  | .error e => ([ud], .error e)
  | .ok r0 =>
    if r0.status = 200 then
      match r0.jsonBody with
      | some t => ([ud], .ok (.ok t))
      | none => ([ud], .error "JSONDecodeError")
    else if r0.status = 400 then
      if msg_mentions_admin r0 then
        let fb := update_data_fallback td
        match mkr 1 with
        | .error _ => ([ud, fb], .ok (.err (update_fail_msg r0)))
        | .ok r1 =>
          if r1.status = 200 then
            match r1.jsonBody with
            | some t => ([ud, fb], .ok (.ok t))
            | none => ([ud, fb], .ok (.err (update_fail_msg r1)))
          else if r1.status = 400 then
            match admin_emails_list td with
            | none =>
              -- UnboundLocalError on `if admin_emails_list:` → bare except
              ([ud, fb], .ok (.err (update_fail_msg r1)))
            | some _ =>
              let fb2 := update_data_fallback2 td
              match mkr 2 with
              | .error _ => ([ud, fb, fb2], .ok (.err (update_fail_msg r1)))
              | .ok r2 =>
                if r2.status = 200 then
                  match r2.jsonBody with
                  | some t => ([ud, fb, fb2], .ok (.ok t))
                  | none => ([ud, fb, fb2], .ok (.err (update_fail_msg r2)))
                else
                  ([ud, fb, fb2], .ok (.err (update_fail_msg r2)))
          else
            ([ud, fb], .ok (.err (update_fail_msg r1)))
      else
        ([ud], .ok (.err (update_fail_msg r0)))
    else
      ([ud], .ok (.err (update_fail_msg r0)))

/-- `SSEAPIClient.update_tenant` (lines 239-361), with its outer
`except Exception` handler. -/
def update_tenant (td : TenantData) (mkr : MkReq) : Except String OpResult :=
  match (update_tenant_run td mkr).2 with
  | .ok r => .ok r
  | .error e => .ok (.err ("Error updating tenant: " ++ e))

/-- The payloads handed to `_make_request` during one `update_tenant`
call, in order. -/
def update_tenant_trace (td : TenantData) (mkr : MkReq) : List Payload :=
  (update_tenant_run td mkr).1

/-! ### Association-list helper lemmas -/

theorem lookup_cons_ne {α β : Type} [BEq α] {k : α} {p : α × β}
    (l : List (α × β)) (h : (k == p.1) = false) :
    List.lookup k (p :: l) = List.lookup k l := by
  obtain ⟨a, b⟩ := p
  rw [List.lookup_cons]
  simp only at h
  rw [h]

theorem lookup_cons_self {α β : Type} [BEq α] {k : α} {p : α × β}
    (l : List (α × β)) (h : (k == p.1) = true) :
    List.lookup k (p :: l) = some p.2 := by
  obtain ⟨a, b⟩ := p
  rw [List.lookup_cons]
  simp only at h
  rw [h]

theorem lookup_append_none {α β : Type} [BEq α] {l₁ : List (α × β)}
    (l₂ : List (α × β)) {k : α} (h : l₁.lookup k = none) :
    (l₁ ++ l₂).lookup k = l₂.lookup k := by
  induction l₁ with
  | nil => rfl
  | cons p l ih =>
    rw [List.cons_append]
    cases hk : k == p.1 with
    | true =>
      rw [lookup_cons_self l hk] at h
      exact absurd h (by simp)
    | false =>
      rw [lookup_cons_ne l hk] at h
      rw [lookup_cons_ne (l ++ l₂) hk]
      exact ih h

theorem lookup_append_some {α β : Type} [BEq α] {l₁ : List (α × β)}
    (l₂ : List (α × β)) {k : α} {v : β} (h : l₁.lookup k = some v) :
    (l₁ ++ l₂).lookup k = some v := by
  induction l₁ with
  | nil => exact absurd h (by simp)
  | cons p l ih =>
    rw [List.cons_append]
    cases hk : k == p.1 with
    | true =>
      rw [lookup_cons_self l hk] at h
      rw [lookup_cons_self (l ++ l₂) hk]
      exact h
    | false =>
      rw [lookup_cons_ne l hk] at h
      rw [lookup_cons_ne (l ++ l₂) hk]
      exact ih h

theorem lookup_filter_self {α β : Type} [BEq α] [LawfulBEq α]
    (l : List (α × β)) (k : α) :
    (l.filter fun kv => kv.1 != k).lookup k = none := by
  induction l with
  | nil => rfl
  | cons p l ih =>
    obtain ⟨a, b⟩ := p
    by_cases hk : a = k
    · subst hk; simpa using ih
    · have h1 : (a != k) = true := by simp [hk]
      have h2 : (k == a) = false := by simp [Ne.symm hk]
      simp only [List.filter_cons, h1, if_true, List.lookup_cons, h2]
      exact ih

theorem lookup_filter_none {α β : Type} [BEq α] [LawfulBEq α]
    {l : List (α × β)} {k k' : α} (h : l.lookup k = none) :
    (l.filter fun kv => kv.1 != k').lookup k = none := by
  induction l with
  | nil => rfl
  | cons p l ih =>
    cases hk : k == p.1 with
    | true =>
      rw [lookup_cons_self l hk] at h
      exact absurd h (by simp)
    | false =>
      rw [lookup_cons_ne l hk] at h
      rw [List.filter_cons]
      by_cases ha : (p.1 != k') = true
      · rw [if_pos ha, lookup_cons_ne _ hk]
        exact ih h
      · rw [if_neg ha]
        exact ih h

theorem lookup_filterMap_not_mem {β : Type} {ls : List String}
    {g : String → Option β} {mkv : String → β → String × PVal}
    (hfst : ∀ f v, (mkv f v).1 = f) {k : String} (h : k ∉ ls) :
    ((ls.filterMap fun f => (g f).map (mkv f)).lookup k) = none := by
  induction ls with
  | nil => rfl
  | cons a ls ih =>
    have hka : k ≠ a := fun he => h (he ▸ List.mem_cons_self a ls)
    have hmem : k ∉ ls := fun hm => h (List.mem_cons_of_mem _ hm)
    rw [List.filterMap_cons]
    cases hg : g a with
    | none => exact ih hmem
    | some v =>
      rw [Option.map_some']
      rw [lookup_cons_ne _ (by rw [hfst]; simp [hka])]
      exact ih hmem

theorem lookup_filterMap_mem {β : Type} {ls : List String}
    {g : String → Option β} {mkv : String → β → String × PVal}
    (hfst : ∀ f v, (mkv f v).1 = f) {k : String} {v : β}
    (hmem : k ∈ ls) (hg : g k = some v) :
    ((ls.filterMap fun f => (g f).map (mkv f)).lookup k) = some (mkv k v).2 := by
  induction ls with
  | nil => exact absurd hmem (List.not_mem_nil k)
  | cons a ls ih =>
    rw [List.filterMap_cons]
    by_cases hak : a = k
    · subst hak
      rw [hg, Option.map_some']
      exact lookup_cons_self _ (by rw [hfst]; simp)
    · have hmem' : k ∈ ls := by
        cases List.mem_cons.mp hmem with
        | inl he => exact absurd he.symm hak
        | inr hm => exact hm
      cases hg2 : g a with
      | none => exact ih hmem'
      | some w =>
        rw [Option.map_some']
        rw [lookup_cons_ne _ (by rw [hfst]; simp [Ne.symm hak])]
        exact ih hmem'

theorem lookup_append_single_ne {β : Type} {l : List (String × β)}
    {k k' : String} (v : β) (hne : k ≠ k') (h : l.lookup k = none) :
    (l ++ [(k', v)]).lookup k = none := by
  rw [lookup_append_none _ h, lookup_cons_ne _ (by simp [hne])]
  rfl

theorem lookup_append_single_self {β : Type} {l : List (String × β)}
    {k : String} (v : β) (h : l.lookup k = none) :
    (l ++ [(k, v)]).lookup k = some v := by
  rw [lookup_append_none _ h]
  exact lookup_cons_self _ (by simp)

/-! ### Key characterization of the update payloads -/

theorem scalar_part_lookup_not_mem (td : TenantData) {k : String}
    (h : k ∉ allowFields) : (scalar_part td).lookup k = none :=
  @lookup_filterMap_not_mem JVal allowFields (fun f => td.scalars.lookup f)
    (fun f v => (f, PVal.jv v)) (fun _ _ => rfl) k h

theorem scalar_part_lookup_mem (td : TenantData) {k : String} {v : JVal}
    (hmem : k ∈ allowFields) (hg : td.scalars.lookup k = some v) :
    (scalar_part td).lookup k = some (PVal.jv v) :=
  @lookup_filterMap_mem JVal allowFields (fun f => td.scalars.lookup f)
    (fun f v => (f, PVal.jv v)) (fun _ _ => rfl) k v hmem hg

theorem build_lookup_none (td : TenantData) {k : String}
    (hk : k ∉ allowFields) (hc : k ≠ "countryCode") (ha : k ≠ "adminDetails") :
    (build_update_data td).lookup k = none := by
  have hsc : (scalar_part td).lookup k = none := scalar_part_lookup_not_mem td hk
  unfold build_update_data
  cases td.countryCode with
  | none =>
    cases td.adminDetails with
    | none => exact hsc
    | some l =>
      by_cases he : l.isEmpty <;>
        simp only [he, if_true, if_false, Bool.false_eq_true] <;>
        exact lookup_append_single_ne _ ha hsc
  | some cc =>
    by_cases h2 : (pyStrip cc).length = 2 <;>
      simp only [h2, if_true, if_false] <;>
      [skip; skip] <;>
      cases td.adminDetails with
      | none => first
        | exact lookup_append_single_ne _ hc hsc
        | exact hsc
      | some l =>
        by_cases he : l.isEmpty <;>
          simp only [he, if_true, if_false, Bool.false_eq_true] <;>
          first
          | exact lookup_append_single_ne _ ha (lookup_append_single_ne _ hc hsc)
          | exact lookup_append_single_ne _ ha hsc

theorem build_lookup_adminDetails (td : TenantData) :
    (build_update_data td).lookup "adminDetails" =
      td.adminDetails.map fun l => PVal.admins (normalize_admins l) := by
  have hsc : (scalar_part td).lookup "adminDetails" = none :=
    scalar_part_lookup_not_mem td (by decide)
  unfold build_update_data
  cases td.countryCode with
  | none =>
    cases td.adminDetails with
    | none => exact hsc
    | some l =>
      by_cases he : l.isEmpty
      · simp only [he, if_true]
        rw [lookup_append_single_self _ hsc, List.isEmpty_iff.mp he]
        rfl
      · simp only [he, Bool.false_eq_true, if_false]
        exact lookup_append_single_self _ hsc
  | some cc =>
    by_cases h2 : (pyStrip cc).length = 2 <;>
      simp only [h2, if_true, if_false]
    · have hb2 : ((scalar_part td) ++
          [("countryCode", PVal.jv (.str (pyStrip cc)))]).lookup "adminDetails" = none :=
        lookup_append_single_ne _ (by decide) hsc
      cases td.adminDetails with
      | none => exact hb2
      | some l =>
        by_cases he : l.isEmpty
        · simp only [he, if_true]
          rw [lookup_append_single_self _ hb2, List.isEmpty_iff.mp he]
          rfl
        · simp only [he, Bool.false_eq_true, if_false]
          exact lookup_append_single_self _ hb2
    · cases td.adminDetails with
      | none => exact hsc
      | some l =>
        by_cases he : l.isEmpty
        · simp only [he, if_true]
          rw [lookup_append_single_self _ hsc, List.isEmpty_iff.mp he]
          rfl
        · simp only [he, Bool.false_eq_true, if_false]
          exact lookup_append_single_self _ hsc

theorem build_lookup_countryCode (td : TenantData) :
    (build_update_data td).lookup "countryCode" =
      match td.countryCode with
      | some cc =>
        if (pyStrip cc).length = 2 then some (PVal.jv (.str (pyStrip cc))) else none
      | none => none := by
  have hsc : (scalar_part td).lookup "countryCode" = none :=
    scalar_part_lookup_not_mem td (by decide)
  unfold build_update_data
  cases td.countryCode with
  | none =>
    cases td.adminDetails with
    | none => exact hsc
    | some l =>
      by_cases he : l.isEmpty <;>
        simp only [he, if_true, if_false, Bool.false_eq_true] <;>
        exact lookup_append_single_ne _ (by decide) hsc
  | some cc =>
    by_cases h2 : (pyStrip cc).length = 2 <;>
      simp only [h2, if_true, if_false]
    · have hb2 : ((scalar_part td) ++
          [("countryCode", PVal.jv (.str (pyStrip cc)))]).lookup "countryCode" =
          some (PVal.jv (.str (pyStrip cc))) :=
        lookup_append_single_self _ hsc
      cases td.adminDetails with
      | none => exact hb2
      | some l =>
        by_cases he : l.isEmpty <;>
          simp only [he, if_true, if_false, Bool.false_eq_true] <;>
          exact lookup_append_some _ hb2
    · cases td.adminDetails with
      | none => exact hsc
      | some l =>
        by_cases he : l.isEmpty <;>
          simp only [he, if_true, if_false, Bool.false_eq_true] <;>
          exact lookup_append_single_ne _ (by decide) hsc

theorem build_lookup_scalar (td : TenantData) {f : String} {v : JVal}
    (hmem : f ∈ allowFields) (hv : td.scalars.lookup f = some v) :
    (build_update_data td).lookup f = some (PVal.jv v) := by
  have hsc : (scalar_part td).lookup f = some (PVal.jv v) :=
    scalar_part_lookup_mem td hmem hv
  unfold build_update_data
  cases td.countryCode with
  | none =>
    cases td.adminDetails with
    | none => exact hsc
    | some l =>
      by_cases he : l.isEmpty <;>
        simp only [he, if_true, if_false, Bool.false_eq_true] <;>
        exact lookup_append_some _ hsc
  | some cc =>
    by_cases h2 : (pyStrip cc).length = 2 <;>
      simp only [h2, if_true, if_false] <;>
      cases td.adminDetails with
      | none => first
        | exact lookup_append_some _ hsc
        | exact hsc
      | some l =>
        by_cases he : l.isEmpty <;>
          simp only [he, if_true, if_false, Bool.false_eq_true] <;>
          first
          | exact lookup_append_some _ (lookup_append_some _ hsc)
          | exact lookup_append_some _ hsc

/-- The first fallback payload never carries `adminDetails`. -/
theorem fallback_lookup_adminDetails (td : TenantData) :
    (update_data_fallback td).lookup "adminDetails" = none := by
  have hf : ((build_update_data td).filter
      fun kv => kv.1 != "adminDetails").lookup "adminDetails" = none :=
    lookup_filter_self _ _
  unfold update_data_fallback
  cases admin_emails_list td with
  | none => exact hf
  | some l =>
    dsimp only
    by_cases hl : l ≠ []
    · rw [if_pos hl]
      exact lookup_append_single_ne _ (by decide) hf
    · rw [if_neg hl]
      exact hf

/-- The `adminEmails` entry of the first fallback payload: present with
the flat email list exactly when that list is assigned and non-empty. -/
theorem fallback_lookup_adminEmails (td : TenantData) :
    (update_data_fallback td).lookup "adminEmails" =
      match admin_emails_list td with
      | some l => if l ≠ [] then some (PVal.emails l) else none
      | none => none := by
  have hb : (build_update_data td).lookup "adminEmails" = none :=
    build_lookup_none td (by decide) (by decide) (by decide)
  have hf : ((build_update_data td).filter
      fun kv => kv.1 != "adminDetails").lookup "adminEmails" = none :=
    lookup_filter_none hb
  unfold update_data_fallback
  cases admin_emails_list td with
  | none => exact hf
  | some l =>
    dsimp only
    by_cases hl : l ≠ []
    · simp only [if_pos hl]
      exact lookup_append_single_self _ hf
    · simp only [if_neg hl]
      exact hf

/-- The second fallback payload never carries `adminEmails`. -/
theorem fallback2_lookup_adminEmails (td : TenantData) :
    (update_data_fallback2 td).lookup "adminEmails" = none := by
  have hf : ((update_data_fallback td).filter
      fun kv => kv.1 != "adminEmails").lookup "adminEmails" = none :=
    lookup_filter_self _ _
  unfold update_data_fallback2
  cases admin_emails_list td with
  | none => exact hf
  | some l =>
    dsimp only
    by_cases hl : l ≠ []
    · rw [if_pos hl]
      exact lookup_append_single_ne _ (by decide) hf
    · rw [if_neg hl]
      exact hf

/-- The `extraAdminEmails` entry of the second fallback payload. -/
theorem fallback2_lookup_extraAdminEmails (td : TenantData) :
    (update_data_fallback2 td).lookup "extraAdminEmails" =
      match admin_emails_list td with
      | some l => if l ≠ [] then some (PVal.emails l) else none
      | none => none := by
  have hb : (build_update_data td).lookup "extraAdminEmails" = none :=
    build_lookup_none td (by decide) (by decide) (by decide)
  have hf1 : (update_data_fallback td).lookup "extraAdminEmails" = none := by
    unfold update_data_fallback
    have hff : ((build_update_data td).filter
        fun kv => kv.1 != "adminDetails").lookup "extraAdminEmails" = none :=
      lookup_filter_none hb
    cases admin_emails_list td with
    | none => exact hff
    | some l =>
      dsimp only
      by_cases hl : l ≠ []
      · rw [if_pos hl]
        exact lookup_append_single_ne _ (by decide) hff
      · rw [if_neg hl]
        exact hff
  have hf : ((update_data_fallback td).filter
      fun kv => kv.1 != "adminEmails").lookup "extraAdminEmails" = none :=
    lookup_filter_none hf1
  unfold update_data_fallback2
  cases admin_emails_list td with
  | none => exact hf
  | some l =>
    dsimp only
    by_cases hl : l ≠ []
    · simp only [if_pos hl]
      exact lookup_append_single_self _ hf
    · simp only [if_neg hl]
      exact hf

/-- Whatever the network does, `update_tenant` always issues a first PUT
carrying the built payload. -/
theorem update_trace_head (td : TenantData) (mkr : MkReq) :
    ∃ tl, update_tenant_trace td mkr = build_update_data td :: tl := by
  unfold update_tenant_trace update_tenant_run
  repeat' split
  all_goals exact ⟨_, rfl⟩

/-- The fast path of `authenticate` (lines 112-114), as an equation. -/
theorem auth_fast (st : ClientState) (now : Int) (net : AuthNet)
    (hv : is_token_valid st now = true) :
    authenticate st now net =
      ⟨st, true, "Using existing authentication token", 0⟩ := by
  simp only [authenticate, hv, if_true]

/-- The 200 branch of `authenticate` (lines 128-135), as an equation. -/
theorem auth_200 (st : ClientState) (now : Int) (tb : TokenBody)
    (hv : is_token_valid st now = false) :
    authenticate st now (.resp 200 (some tb)) =
      ⟨⟨tb.access_token, some (now + tb.expires_in.getD 3600)⟩,
        true, "Authentication successful", 1⟩ := by
  simp only [authenticate, hv, Bool.false_eq_true, if_false]
  rfl

/-- Characterization of `is_token_valid`. -/
theorem valid_iff (st : ClientState) (now : Int) :
    is_token_valid st now = true ↔
      ∃ t e, st.access_token = some t ∧ t ≠ "" ∧ st.token_expires_at = some e ∧
        now < e - 300 := by
  obtain ⟨a, x⟩ := st
  cases a <;> cases x <;> simp [is_token_valid]

/-- After a successful exchange caching a non-empty token with
`expires_in > 300`, the token is valid. -/
theorem post_auth_valid (st : ClientState) (now : Int) (tok : String) (e : Int)
    (htok : tok ≠ "") (he : 300 < e) :
    is_token_valid
      (authenticate st now (.resp 200 (some ⟨some tok, some e⟩))).state now
      = true := by
  cases hv : is_token_valid st now with
  | true => rw [auth_fast st now _ hv]; exact hv
  | false =>
    rw [auth_200 st now _ hv]
    simp [is_token_valid, htok]
    omega

/-- After an exchange with `expires_in < 300`, the received token is
already invalid. -/
theorem post_auth_invalid (st : ClientState) (now : Int) (otok : Option String)
    (e : Int) (hv : is_token_valid st now = false) (he : e < 300) :
    is_token_valid
      (authenticate st now (.resp 200 (some ⟨otok, some e⟩))).state now
      = false := by
  rw [auth_200 st now _ hv]
  cases otok with
  | none => rfl
  | some t =>
    simp [is_token_valid]
    intro
    omega

/-! ### Claim theorems -/

/-- C2: `is_token_valid` returns true iff a (non-empty) token is cached
and `now < expiry - 300` (the 5-minute safety margin); it is false on a
fresh client; it is true right after a successful exchange caching a
non-empty token with `expires_in > 300`; it is false once
`now ≥ expiry - 300`; and an exchange with `expires_in < 300` yields a
token that is invalid the instant it is received. -/
theorem token_validity_window :
    (∀ st now, is_token_valid st now = true ↔
      ∃ t e, st.access_token = some t ∧ t ≠ "" ∧ st.token_expires_at = some e ∧
        now < e - 300)
    ∧ (∀ now, is_token_valid ⟨none, none⟩ now = false)
    ∧ (∀ st now tok e, tok ≠ "" → 300 < e →
        is_token_valid
          (authenticate st now (.resp 200 (some ⟨some tok, some e⟩))).state now
          = true)
    ∧ (∀ t e now, e - 300 ≤ now → is_token_valid ⟨some t, some e⟩ now = false)
    ∧ (∀ st now tok e, is_token_valid st now = false → e < 300 →
        is_token_valid
          (authenticate st now (.resp 200 (some ⟨some tok, some e⟩))).state now
          = false) := by
  refine ⟨valid_iff, fun now => rfl, post_auth_valid, ?_, ?_⟩
  · intro t e now h
    simp [is_token_valid]
    intro
    omega
  · intro st now tok e hv he
    exact post_auth_invalid st now (some tok) e hv he

/-- C2 witness: instantiation of the parts with hypotheses at concrete
inputs. -/
theorem token_validity_window_witness :
    is_token_valid
      (authenticate ⟨none, none⟩ 0 (.resp 200 (some ⟨some "T", some 400⟩))).state 0
      = true
    ∧ is_token_valid ⟨some "T", some 200⟩ 0 = false
    ∧ is_token_valid
        (authenticate ⟨none, none⟩ 0 (.resp 200 (some ⟨some "T", some 10⟩))).state 0
        = false := by
  refine ⟨?_, ?_, ?_⟩
  · exact token_validity_window.2.2.1 ⟨none, none⟩ 0 "T" 400 (by decide) (by decide)
  · exact token_validity_window.2.2.2.1 "T" 200 0 (by decide)
  · exact token_validity_window.2.2.2.2 ⟨none, none⟩ 0 "T" 10 (by decide) (by decide)

/-- C3: when the cached token is valid, `authenticate` is the idempotent
fast path: zero network calls, state (hence the cached token) unchanged,
success; and a second call right after a successful exchange returns the
same cached state without a network call. -/
theorem authenticate_fast_path :
    (∀ st now net, is_token_valid st now = true →
      authenticate st now net =
        ⟨st, true, "Using existing authentication token", 0⟩)
    ∧ (∀ st now net tok e, tok ≠ "" → 300 < e →
        authenticate
          (authenticate st now (.resp 200 (some ⟨some tok, some e⟩))).state now net
        = ⟨(authenticate st now (.resp 200 (some ⟨some tok, some e⟩))).state,
           true, "Using existing authentication token", 0⟩) := by
  constructor
  · intro st now net hv
    exact auth_fast st now net hv
  · intro st now net tok e htok he
    exact auth_fast _ now net (post_auth_valid st now tok e htok he)

/-- C3 witness. -/
theorem authenticate_fast_path_witness :
    authenticate ⟨some "T", some 1000⟩ 0 (.exn "boom") =
      ⟨⟨some "T", some 1000⟩, true, "Using existing authentication token", 0⟩
    ∧ authenticate
        (authenticate ⟨none, none⟩ 0 (.resp 200 (some ⟨some "T", some 400⟩))).state
        0 (.exn "boom")
      = ⟨(authenticate ⟨none, none⟩ 0 (.resp 200 (some ⟨some "T", some 400⟩))).state,
         true, "Using existing authentication token", 0⟩ := by
  constructor
  · exact authenticate_fast_path.1 ⟨some "T", some 1000⟩ 0 (.exn "boom") (by decide)
  · exact authenticate_fast_path.2 ⟨none, none⟩ 0 (.exn "boom") "T" 400
      (by decide) (by decide)

/-- C4: an `authenticate` call that reaches the network and gets a 200
parses `access_token` and `expires_in` (default 3600 when absent), caches
both wholesale with `expiry = now + expires_in`, and reports success. -/
theorem authenticate_success_parses (st : ClientState) (now : Int)
    (tb : TokenBody) (hv : is_token_valid st now = false) :
    authenticate st now (.resp 200 (some tb)) =
      ⟨⟨tb.access_token, some (now + tb.expires_in.getD 3600)⟩,
        true, "Authentication successful", 1⟩ :=
  auth_200 st now tb hv

/-- C4 witness (also exercising the 3600-second default). -/
theorem authenticate_success_parses_witness :
    authenticate ⟨none, none⟩ 0 (.resp 200 (some ⟨some "T", none⟩)) =
      ⟨⟨some "T", some 3600⟩, true, "Authentication successful", 1⟩ :=
  authenticate_success_parses ⟨none, none⟩ 0 ⟨some "T", none⟩ (by decide)

/-- C5: every failing `authenticate` outcome leaves the cached token and
expiry untouched and returns the documented message: a distinct
rate-limit message on 429, a generic status-carrying message on any other
non-200 status, and the exception text on a transport failure. -/
theorem authenticate_failure_paths (st : ClientState) (now : Int)
    (hv : is_token_valid st now = false) :
    (∀ e, authenticate st now (.exn e) =
      ⟨st, false, "Authentication error: " ++ e, 1⟩)
    ∧ (∀ b, authenticate st now (.resp 429 b) =
      ⟨st, false, "Rate limit exceeded. Please wait before trying again.", 1⟩)
    ∧ "Rate limit exceeded. Please wait before trying again." ≠
        "Authentication failed: " ++ toString (429 : Nat)
    ∧ (∀ s b, s ≠ 200 → s ≠ 429 → authenticate st now (.resp s b) =
      ⟨st, false, "Authentication failed: " ++ toString s, 1⟩) := by
  refine ⟨?_, ?_, by decide, ?_⟩
  · intro e
    simp only [authenticate, hv, Bool.false_eq_true, if_false]
  · intro b
    simp only [authenticate, hv, Bool.false_eq_true, if_false]
    rfl
  · intro s b hs hr
    simp only [authenticate, hv, Bool.false_eq_true, if_false, if_neg hs, if_neg hr]

/-- C5 witness. -/
theorem authenticate_failure_paths_witness :
    authenticate ⟨none, none⟩ 0 (.exn "timeout") =
      ⟨⟨none, none⟩, false, "Authentication error: timeout", 1⟩
    ∧ authenticate ⟨none, none⟩ 0 (.resp 429 none) =
      ⟨⟨none, none⟩, false,
        "Rate limit exceeded. Please wait before trying again.", 1⟩
    ∧ authenticate ⟨none, none⟩ 0 (.resp 500 none) =
      ⟨⟨none, none⟩, false, "Authentication failed: 500", 1⟩ := by
  refine ⟨?_, ?_, ?_⟩
  · exact (authenticate_failure_paths ⟨none, none⟩ 0 (by decide)).1 "timeout"
  · exact (authenticate_failure_paths ⟨none, none⟩ 0 (by decide)).2.1 none
  · exact (authenticate_failure_paths ⟨none, none⟩ 0 (by decide)).2.2.2 500 none
      (by decide) (by decide)

/-- Helper: a 200 `get_tenants` response whose extracted value supports
`len()` produces a success carrying the extracted value. -/
theorem get_tenants_200 (mkr : MkReq) (b : JVal) (tx : String) (n : Nat)
    (h : mkr 0 = .ok ⟨200, some b, tx⟩)
    (hl : pyLen (extract_tenants b) = .ok n) :
    get_tenants mkr = .ok (.ok (extract_tenants b)) := by
  unfold get_tenants get_tenants_body
  rw [h]
  simp [Bind.bind, Except.bind, hl]

/-- C6: a 200 `get_tenants` body is accepted in all three shapes —
dict-with-`data`, dict-with-`tenants`, bare list — with `data` checked
before `tenants`. -/
theorem get_tenants_three_shapes (mkr : MkReq) (b : JVal) (tx : String)
    (h : mkr 0 = .ok ⟨200, some b, tx⟩) :
    (∀ fs l, b = .obj fs → fs.lookup "data" = some (.arr l) →
        get_tenants mkr = .ok (.ok (.arr l)))
    ∧ (∀ fs l, b = .obj fs → fs.lookup "data" = none →
        fs.lookup "tenants" = some (.arr l) →
        get_tenants mkr = .ok (.ok (.arr l)))
    ∧ (∀ l, b = .arr l → get_tenants mkr = .ok (.ok (.arr l))) := by
  refine ⟨?_, ?_, ?_⟩
  · intro fs l hb hd
    subst hb
    have he : extract_tenants (.obj fs) = .arr l := by
      simp [extract_tenants, hd]
    have hg := get_tenants_200 mkr _ tx l.length h (by rw [he]; rfl)
    rwa [he] at hg
  · intro fs l hb hd ht
    subst hb
    have he : extract_tenants (.obj fs) = .arr l := by
      simp [extract_tenants, hd, ht]
    have hg := get_tenants_200 mkr _ tx l.length h (by rw [he]; rfl)
    rwa [he] at hg
  · intro l hb
    subst hb
    have hg := get_tenants_200 mkr _ tx l.length h rfl
    exact hg

/-- C6 witness: the three shapes on concrete bodies, with both keys
present in the first body (so `data` wins). -/
theorem get_tenants_three_shapes_witness :
    get_tenants (fun _ =>
        .ok ⟨200, some (.obj [("data", .arr [.num 1]), ("tenants", .arr [])]), ""⟩)
      = .ok (.ok (.arr [.num 1]))
    ∧ get_tenants (fun _ =>
        .ok ⟨200, some (.obj [("x", .null), ("tenants", .arr [.num 2])]), ""⟩)
      = .ok (.ok (.arr [.num 2]))
    ∧ get_tenants (fun _ => .ok ⟨200, some (.arr [.num 3]), ""⟩)
      = .ok (.ok (.arr [.num 3])) := by
  refine ⟨?_, ?_, ?_⟩
  · exact (get_tenants_three_shapes _ _ "" rfl).1
      [("data", .arr [.num 1]), ("tenants", .arr [])] [.num 1] rfl rfl
  · exact (get_tenants_three_shapes _ _ "" rfl).2.1
      [("x", .null), ("tenants", .arr [.num 2])] [.num 2] rfl rfl rfl
  · exact (get_tenants_three_shapes _ _ "" rfl).2.2 [.num 3] rfl

/-- C10 (implicit): a 200 `get_tenants` body that is a dict with neither
`data` nor `tenants` yields success with the empty list. -/
theorem get_tenants_dict_neither_key (mkr : MkReq)
    (fs : List (String × JVal)) (tx : String)
    (h : mkr 0 = .ok ⟨200, some (.obj fs), tx⟩)
    (hd : fs.lookup "data" = none) (ht : fs.lookup "tenants" = none) :
    get_tenants mkr = .ok (.ok (.arr [])) := by
  have he : extract_tenants (.obj fs) = .arr [] := by
    simp [extract_tenants, hd, ht]
  have hg := get_tenants_200 mkr _ tx 0 h (by rw [he]; rfl)
  rwa [he] at hg

/-- C10 witness. -/
theorem get_tenants_dict_neither_key_witness :
    get_tenants (fun _ => .ok ⟨200, some (.obj [("meta", .num 7)]), ""⟩)
      = .ok (.ok (.arr [])) :=
  get_tenants_dict_neither_key _ [("meta", .num 7)] "" rfl rfl rfl

/-- C7: admin-contact normalization in `update_tenant`: a bare non-empty
string becomes `\x7bemail, "", ""\x7d`; a structured entry keeps its trimmed
fields; entries with an empty (stripped) email are skipped; the result is
attached under `adminDetails`; an explicitly empty input list yields
`adminDetails = []`, distinct from the key being absent. -/
theorem admin_normalization :
    (∀ s rest, pyStrip s ≠ "" →
      normalize_admins (.strA s :: rest) =
        ⟨pyStrip s, "", ""⟩ :: normalize_admins rest)
    ∧ (∀ e f l rest, pyStrip e ≠ "" →
      normalize_admins (.objWithEmail e f l :: rest) =
        ⟨pyStrip e, pyStrip f, pyStrip l⟩ :: normalize_admins rest)
    ∧ (∀ e f l rest, pyStrip e = "" →
      normalize_admins (.objWithEmail e f l :: rest) = normalize_admins rest)
    ∧ (∀ s rest, pyStrip s = "" →
      normalize_admins (.strA s :: rest) = normalize_admins rest)
    ∧ (∀ td l, td.adminDetails = some l →
      (build_update_data td).lookup "adminDetails" =
        some (.admins (normalize_admins l)))
    ∧ (∀ td, td.adminDetails = some [] →
      (build_update_data td).lookup "adminDetails" = some (.admins []))
    ∧ (∀ td, td.adminDetails = none →
      (build_update_data td).lookup "adminDetails" = none) := by
  refine ⟨?_, ?_, ?_, ?_, ?_, ?_, ?_⟩
  · intro s rest hs
    simp [normalize_admins, hs]
  · intro e f l rest he
    simp [normalize_admins, he]
  · intro e f l rest he
    simp [normalize_admins, he]
  · intro s rest hs
    simp [normalize_admins, hs]
  · intro td l hl
    rw [build_lookup_adminDetails, hl]
    rfl
  · intro td hl
    rw [build_lookup_adminDetails, hl]
    rfl
  · intro td hl
    rw [build_lookup_adminDetails, hl]
    rfl

/-- C7 witness. -/
theorem admin_normalization_witness :
    normalize_admins [.strA "a@b.com"] = [⟨"a@b.com", "", ""⟩]
    ∧ normalize_admins [.objWithEmail " x@y.z " " A " " B "] =
        [⟨"x@y.z", "A", "B"⟩]
    ∧ normalize_admins [.objWithEmail "  " "A" "B"] = []
    ∧ normalize_admins [.strA " "] = []
    ∧ (build_update_data ⟨[], none, some [.strA "a@b.com"]⟩).lookup "adminDetails"
        = some (.admins [⟨"a@b.com", "", ""⟩])
    ∧ (build_update_data ⟨[], none, some []⟩).lookup "adminDetails"
        = some (.admins [])
    ∧ (build_update_data ⟨[], none, none⟩).lookup "adminDetails" = none := by
  refine ⟨?_, ?_, ?_, ?_, ?_, ?_, ?_⟩
  · exact admin_normalization.1 "a@b.com" [] (by decide)
  · exact admin_normalization.2.1 " x@y.z " " A " " B " [] (by decide)
  · exact admin_normalization.2.2.1 "  " "A" "B" [] (by decide)
  · exact admin_normalization.2.2.2.1 " " [] (by decide)
  · exact admin_normalization.2.2.2.2.1 ⟨[], none, some [.strA "a@b.com"]⟩
      [.strA "a@b.com"] rfl
  · exact admin_normalization.2.2.2.2.2.1 ⟨[], none, some []⟩ rfl
  · exact admin_normalization.2.2.2.2.2.2 ⟨[], none, none⟩ rfl

/-- C8: a supplied `countryCode` is kept (trimmed) iff its trimmed length
is exactly 2, is dropped otherwise, and in either case the update still
proceeds: the allow-listed scalar fields stay in the payload and the
first PUT is issued with it. -/
theorem countryCode_validation (td : TenantData) (cc : String)
    (hcc : td.countryCode = some cc) :
    ((pyStrip cc).length = 2 →
      (build_update_data td).lookup "countryCode" =
        some (.jv (.str (pyStrip cc))))
    ∧ ((pyStrip cc).length ≠ 2 →
      (build_update_data td).lookup "countryCode" = none)
    ∧ (∀ f v, f ∈ allowFields → td.scalars.lookup f = some v →
      (build_update_data td).lookup f = some (.jv v))
    ∧ (∀ mkr, ∃ tl, update_tenant_trace td mkr = build_update_data td :: tl) := by
  refine ⟨?_, ?_, fun f v => build_lookup_scalar td, update_trace_head td⟩
  · intro h2
    rw [build_lookup_countryCode, hcc]
    simp only [if_pos h2]
  · intro h2
    rw [build_lookup_countryCode, hcc]
    simp only [if_neg h2]

/-- C8 witness: a 3-letter code is dropped, a 2-letter one kept, scalars
survive, and the PUT is still issued. -/
theorem countryCode_validation_witness :
    (build_update_data ⟨[("name", .str "X")], some "USA", none⟩).lookup "countryCode"
      = none
    ∧ (build_update_data ⟨[("name", .str "X")], some " us ", none⟩).lookup "countryCode"
      = some (.jv (.str "us"))
    ∧ (build_update_data ⟨[("name", .str "X")], some "USA", none⟩).lookup "name"
      = some (.jv (.str "X"))
    ∧ ∃ tl, update_tenant_trace ⟨[("name", .str "X")], some "USA", none⟩
        (fun _ => .ok ⟨500, none, ""⟩) =
          build_update_data ⟨[("name", .str "X")], some "USA", none⟩ :: tl := by
  refine ⟨?_, ?_, ?_, ?_⟩
  · exact (countryCode_validation ⟨[("name", .str "X")], some "USA", none⟩
      "USA" rfl).2.1 (by decide)
  · exact (countryCode_validation ⟨[("name", .str "X")], some " us ", none⟩
      " us " rfl).1 (by decide)
  · exact (countryCode_validation ⟨[("name", .str "X")], some "USA", none⟩
      "USA" rfl).2.2.1 "name" (.str "X") (by decide) rfl
  · exact (countryCode_validation ⟨[("name", .str "X")], some "USA", none⟩
      "USA" rfl).2.2.2 (fun _ => .ok ⟨500, none, ""⟩)

/-- C9: every tenant operation, on every network outcome (raised
authentication failure, transport exception, any status, malformed
body), returns the uniform `(success, payload-or-message)` pair — no
exception escapes the operation (`Except.error` never survives the
`except Exception` boundary). -/
theorem operations_uniform_result :
    (∀ mkr, (∃ v, get_tenants mkr = .ok (.ok v)) ∨
      (∃ m, get_tenants mkr = .ok (.err m)))
    ∧ (∀ mkr, (∃ v, get_tenant mkr = .ok (.ok v)) ∨
      (∃ m, get_tenant mkr = .ok (.err m)))
    ∧ (∀ td mkr, (∃ v, create_tenant td mkr = .ok (.ok v)) ∨
      (∃ m, create_tenant td mkr = .ok (.err m)))
    ∧ (∀ td mkr, (∃ v, update_tenant td mkr = .ok (.ok v)) ∨
      (∃ m, update_tenant td mkr = .ok (.err m)))
    ∧ (∀ mkr, (∃ v, delete_tenant mkr = .ok (.ok v)) ∨
      (∃ m, delete_tenant mkr = .ok (.err m)))
    ∧ (∀ ids mkr, (∃ v, delete_multiple_tenants ids mkr = .ok (.ok v)) ∨
      (∃ m, delete_multiple_tenants ids mkr = .ok (.err m))) := by
  refine ⟨?_, ?_, ?_, ?_, ?_, ?_⟩
  · intro mkr
    unfold get_tenants
    cases get_tenants_body mkr with
    | ok r => cases r with
      | ok v => exact .inl ⟨v, rfl⟩
      | err m => exact .inr ⟨m, rfl⟩
    | error e => exact .inr ⟨_, rfl⟩
  · intro mkr
    unfold get_tenant
    cases get_tenant_body mkr with
    | ok r => cases r with
      | ok v => exact .inl ⟨v, rfl⟩
      | err m => exact .inr ⟨m, rfl⟩
    | error e => exact .inr ⟨_, rfl⟩
  · intro td mkr
    unfold create_tenant
    cases create_tenant_body td mkr with
    | ok r => cases r with
      | ok v => exact .inl ⟨v, rfl⟩
      | err m => exact .inr ⟨m, rfl⟩
    | error e => exact .inr ⟨_, rfl⟩
  · intro td mkr
    unfold update_tenant
    cases (update_tenant_run td mkr).2 with
    | ok r => cases r with
      | ok v => exact .inl ⟨v, rfl⟩
      | err m => exact .inr ⟨m, rfl⟩
    | error e => exact .inr ⟨_, rfl⟩
  · intro mkr
    unfold delete_tenant
    cases delete_tenant_body mkr with
    | ok r => cases r with
      | ok v => exact .inl ⟨v, rfl⟩
      | err m => exact .inr ⟨m, rfl⟩
    | error e => exact .inr ⟨_, rfl⟩
  · intro ids mkr
    unfold delete_multiple_tenants
    cases delete_multiple_tenants_body ids mkr with
    | ok r => cases r with
      | ok v => exact .inl ⟨v, rfl⟩
      | err m => exact .inr ⟨m, rfl⟩
    | error e => exact .inr ⟨_, rfl⟩

/-- Helper: reduction of `update_tenant_run` once the first PUT has come
back 400 with a message mentioning `adminDetails`. -/
theorem run_400_admin_eq (td : TenantData) (mkr : MkReq) (r0 : HttpResponse)
    (h0 : mkr 0 = .ok r0) (h400 : r0.status = 400)
    (hm : msg_mentions_admin r0 = true) :
    update_tenant_run td mkr =
      (match mkr 1 with
       | .error _ =>
         ([build_update_data td, update_data_fallback td],
           .ok (.err (update_fail_msg r0)))
       | .ok r1 =>
         if r1.status = 200 then
           match r1.jsonBody with
           | some t =>
             ([build_update_data td, update_data_fallback td], .ok (.ok t))
           | none =>
             ([build_update_data td, update_data_fallback td],
               .ok (.err (update_fail_msg r1)))
         else if r1.status = 400 then
           match admin_emails_list td with
           | none =>
             ([build_update_data td, update_data_fallback td],
               .ok (.err (update_fail_msg r1)))
           | some _ =>
             match mkr 2 with
             | .error _ =>
               ([build_update_data td, update_data_fallback td,
                 update_data_fallback2 td], .ok (.err (update_fail_msg r1)))
             | .ok r2 =>
               if r2.status = 200 then
                 match r2.jsonBody with
                 | some t =>
                   ([build_update_data td, update_data_fallback td,
                     update_data_fallback2 td], .ok (.ok t))
                 | none =>
                   ([build_update_data td, update_data_fallback td,
                     update_data_fallback2 td], .ok (.err (update_fail_msg r2)))
               else
                 ([build_update_data td, update_data_fallback td,
                   update_data_fallback2 td], .ok (.err (update_fail_msg r2)))
         else
           ([build_update_data td, update_data_fallback td],
             .ok (.err (update_fail_msg r1)))) := by
  unfold update_tenant_run
  rw [h0]
  dsimp only
  rw [h400, hm]
  rw [if_neg (by norm_num : ¬(400 : Nat) = 200), if_pos rfl, if_pos rfl]

/-- C1 counterexample: take an update whose input carries no admin list
at all, a first PUT answered 400 with body `\x7b"message": "adminDetails"\x7d`,
and a second PUT answered 400.  The claim demands exactly one further
retry carrying `extraAdminEmails` (three PUTs in total) and a retry
payload carrying `adminEmails`; the code issues exactly two PUTs, both
with empty payloads (the local `admin_emails_list` is unbound, the
resulting `UnboundLocalError` is swallowed by the bare `except`), and
fails with the second response's detail. -/
theorem update_fallback_chain_counterexample :
    update_tenant_trace ⟨[], none, none⟩
      (fun n => if n = 0 then
          .ok ⟨400, some (.obj [("message", .str "adminDetails")]), ""⟩
        else .ok ⟨400, some (.obj []), ""⟩)
      = [[], []]
    ∧ update_tenant ⟨[], none, none⟩
      (fun n => if n = 0 then
          .ok ⟨400, some (.obj [("message", .str "adminDetails")]), ""⟩
        else .ok ⟨400, some (.obj []), ""⟩)
      = .ok (.err (update_fail_msg ⟨400, some (.obj []), ""⟩)) :=
  ⟨rfl, rfl⟩

/-- C1 (amended): a 200 on the first PUT succeeds at once; a first-tier
400 whose message lacks the `adminDetails` substring fails with that
response's detail and issues no retry.  A first-tier 400 whose message
mentions `adminDetails` triggers exactly one retry whose payload drops
`adminDetails` and carries `adminEmails` exactly when the input admin
list is present, non-empty and yields a non-empty flat email list; a 200
there succeeds.  If that retry returns 400: when the input admin list
was absent or empty, no further request is issued and the call fails
with the second response's detail; when it was present and non-empty,
exactly one further retry is issued whose payload drops `adminEmails`
and carries `extraAdminEmails` exactly when the flat email list is
non-empty — a 200 there succeeds, anything else fails with the final
response's detail. -/
theorem update_fallback_chain :
    (∀ td mkr (t : JVal) (tx : String), mkr 0 = .ok ⟨200, some t, tx⟩ →
      update_tenant_trace td mkr = [build_update_data td]
      ∧ update_tenant td mkr = .ok (.ok t))
    ∧ (∀ td mkr r0, mkr 0 = .ok r0 → r0.status = 400 →
        msg_mentions_admin r0 = false →
        update_tenant_trace td mkr = [build_update_data td]
        ∧ update_tenant td mkr = .ok (.err (update_fail_msg r0)))
    ∧ (∀ td mkr r0 r1, mkr 0 = .ok r0 → r0.status = 400 →
        msg_mentions_admin r0 = true → mkr 1 = .ok r1 →
        ((update_data_fallback td).lookup "adminDetails" = none)
        ∧ ((update_data_fallback td).lookup "adminEmails" =
            match admin_emails_list td with
            | some l => if l ≠ [] then some (PVal.emails l) else none
            | none => none)
        ∧ (∀ t, r1.status = 200 → r1.jsonBody = some t →
            update_tenant_trace td mkr =
              [build_update_data td, update_data_fallback td]
            ∧ update_tenant td mkr = .ok (.ok t))
        ∧ (r1.status = 400 → admin_emails_list td = none →
            update_tenant_trace td mkr =
              [build_update_data td, update_data_fallback td]
            ∧ update_tenant td mkr = .ok (.err (update_fail_msg r1)))
        ∧ (∀ l, r1.status = 400 → admin_emails_list td = some l →
            update_tenant_trace td mkr =
              [build_update_data td, update_data_fallback td,
               update_data_fallback2 td]
            ∧ (update_data_fallback2 td).lookup "adminEmails" = none
            ∧ (update_data_fallback2 td).lookup "extraAdminEmails" =
                (if l ≠ [] then some (PVal.emails l) else none)
            ∧ (∀ t r2, mkr 2 = .ok r2 → r2.status = 200 →
                r2.jsonBody = some t → update_tenant td mkr = .ok (.ok t))
            ∧ (∀ r2, mkr 2 = .ok r2 → r2.status ≠ 200 →
                update_tenant td mkr = .ok (.err (update_fail_msg r2))))) := by
  refine ⟨?_, ?_, ?_⟩
  · intro td mkr t tx h0
    constructor
    · unfold update_tenant_trace update_tenant_run
      rw [h0]
      rfl
    · unfold update_tenant update_tenant_run
      rw [h0]
      rfl
  · intro td mkr r0 h0 h400 hm
    have hrun : update_tenant_run td mkr =
        ([build_update_data td], .ok (.err (update_fail_msg r0))) := by
      unfold update_tenant_run
      rw [h0]
      dsimp only
      rw [h400, hm]
      rw [if_neg (by norm_num : ¬(400 : Nat) = 200), if_pos rfl]
      rfl
    constructor
    · unfold update_tenant_trace
      rw [hrun]
    · unfold update_tenant
      rw [hrun]
  · intro td mkr r0 r1 h0 h400 hm h1
    have hrun := run_400_admin_eq td mkr r0 h0 h400 hm
    rw [h1] at hrun
    dsimp only at hrun
    refine ⟨fallback_lookup_adminDetails td, fallback_lookup_adminEmails td,
      ?_, ?_, ?_⟩
    · intro t h200 hbody
      rw [h200, hbody] at hrun
      rw [if_pos rfl] at hrun
      constructor
      · unfold update_tenant_trace
        rw [hrun]
      · unfold update_tenant
        rw [hrun]
    · intro h4 hael
      rw [h4] at hrun
      rw [if_neg (by norm_num : ¬(400 : Nat) = 200), if_pos rfl, hael] at hrun
      constructor
      · unfold update_tenant_trace
        rw [hrun]
      · unfold update_tenant
        rw [hrun]
    · intro l h4 hael
      rw [h4] at hrun
      rw [if_neg (by norm_num : ¬(400 : Nat) = 200), if_pos rfl, hael] at hrun
      dsimp only at hrun
      refine ⟨?_, fallback2_lookup_adminEmails td, ?_, ?_, ?_⟩
      · unfold update_tenant_trace
        cases h2 : mkr 2 with
        | error e =>
          rw [h2] at hrun
          rw [hrun]
        | ok r2 =>
          rw [h2] at hrun
          dsimp only at hrun
          by_cases hs : r2.status = 200
          · rw [if_pos hs] at hrun
            cases hb : r2.jsonBody with
            | some t => rw [hb] at hrun; rw [hrun]
            | none => rw [hb] at hrun; rw [hrun]
          · rw [if_neg hs] at hrun
            rw [hrun]
      · rw [fallback2_lookup_extraAdminEmails td, hael]
      · intro t r2 h2 hs hb
        rw [h2] at hrun
        dsimp only at hrun
        rw [hs, hb] at hrun
        rw [if_pos rfl] at hrun
        unfold update_tenant
        rw [hrun]
      · intro r2 h2 hs
        rw [h2] at hrun
        dsimp only at hrun
        rw [if_neg hs] at hrun
        unfold update_tenant
        rw [hrun]

/-- C1 witness: a concrete three-tier run — input with one bare-string
admin, 400(`adminDetails`)/400/200 responses — issues exactly the three
payloads and succeeds at the last tier. -/
theorem update_fallback_chain_witness :
    update_tenant_trace ⟨[], none, some [.strA "a@b.com"]⟩
      (fun n => if n = 0 then
          .ok ⟨400, some (.obj [("message", .str "adminDetails not allowed")]), ""⟩
        else if n = 1 then .ok ⟨400, some (.obj []), ""⟩
        else .ok ⟨200, some (.obj [("id", .str "t1")]), ""⟩)
      = [build_update_data ⟨[], none, some [.strA "a@b.com"]⟩,
         update_data_fallback ⟨[], none, some [.strA "a@b.com"]⟩,
         update_data_fallback2 ⟨[], none, some [.strA "a@b.com"]⟩]
    ∧ update_tenant ⟨[], none, some [.strA "a@b.com"]⟩
      (fun n => if n = 0 then
          .ok ⟨400, some (.obj [("message", .str "adminDetails not allowed")]), ""⟩
        else if n = 1 then .ok ⟨400, some (.obj []), ""⟩
        else .ok ⟨200, some (.obj [("id", .str "t1")]), ""⟩)
      = .ok (.ok (.obj [("id", .str "t1")])) := by
  have h := (update_fallback_chain.2.2 ⟨[], none, some [.strA "a@b.com"]⟩
    (fun n => if n = 0 then
        .ok ⟨400, some (.obj [("message", .str "adminDetails not allowed")]), ""⟩
      else if n = 1 then .ok ⟨400, some (.obj []), ""⟩
      else .ok ⟨200, some (.obj [("id", .str "t1")]), ""⟩)
    ⟨400, some (.obj [("message", .str "adminDetails not allowed")]), ""⟩
    ⟨400, some (.obj []), ""⟩ rfl rfl rfl rfl).2.2.2.2 ["a@b.com"] rfl rfl
  exact ⟨h.1, h.2.2.2.1 (.obj [("id", .str "t1")])
    ⟨200, some (.obj [("id", .str "t1")]), ""⟩ rfl rfl rfl⟩

end TenantManager
